import Mathlib

/-!
Shallow embedding of the `traktdeviceauth` Go package (device-auth flow for
the Trakt API): error values, wire/data structures, the response transformer,
the three HTTP transport operations, and the poll orchestrator, together with
theorems about their behaviour.

Modelling conventions:
* Go `error` values are `GoError`: `errors.New` sentinels carry their message,
  `fmt.Errorf("...: %w", err)` is `GoError.wrap`, and the
  `fmt.Errorf("...: unexpected status code '%v'", code)` branches are
  `GoError.unexpectedStatus` carrying the raw code.
* `time.Time` instants are `Int` nanoseconds since the Unix epoch (a
  time-zone-free representation: the `time.Location` attached to a Go
  `time.Time` affects printing only, never the instant).
* `time.Duration` arithmetic (`time.Second * time.Duration(n)`) is 64-bit and
  wraps on overflow, modelled by `wrap64`.
* Each HTTP operation is a function of an `HttpEnv` describing what the
  network/decoder would do for that single request (transport error or status
  code, body-read outcome, JSON-decode outcome); the operation returns its Go
  result pair plus whether a response body was acquired and whether it was
  closed (the `defer resp.Body.Close()` discipline).
* The poll loop runs over discrete time: `time.After(interval)` fires at
  `t + interval`, the derived context's `Done` channel fires at `doneAt`
  (minimum of the caller's cancellation instant and the `pollDeadline`
  instant installed by `context.WithDeadline`, whose `ExpiresIn`-seconds
  duration is computed with the wrapping 64-bit multiplication).
-/

/-- Two's-complement wraparound of 64-bit signed integer arithmetic, as
performed by Go's `int64`/`time.Duration` multiplication. -/
def wrap64 (n : Int) : Int :=
  (n + 2 ^ 63) % 2 ^ 64 - 2 ^ 63

/-- Nanoseconds per second; Go's `time.Second` as an integer duration. -/
def nsPerSec : Int := 1000000000

/-- Go `error` values as used by this package: `errors.New` sentinels,
the `fmt.Errorf` "unexpected status code" errors carrying the raw code, and
`fmt.Errorf("...: %w", err)` wrapping. -/
inductive GoError where
  | sentinel (msg : String)
  | unexpectedStatus (op : String) (code : Int)
  | wrap (op : String) (inner : GoError)
deriving DecidableEq, Repr

/-- `ErrDeviceCodeUnclaimed` (status 400 on the token exchange). -/
def ErrDeviceCodeUnclaimed : GoError :=
  GoError.sentinel "the user has not yet claimed the device code"

/-- `ErrInvalidGrant` (status 401 on refresh). -/
def ErrInvalidGrant : GoError :=
  GoError.sentinel "the provided authorization grant is invalid, expired, revoked, does not match the redirection URI used in the authorization request, or was issued to another client"

/-- `ErrInvalidDeviceCode` (status 404). -/
def ErrInvalidDeviceCode : GoError := GoError.sentinel "invalid device code"

/-- `ErrForbidden` (status 403). -/
def ErrForbidden : GoError :=
  GoError.sentinel "invalid API key or unapproved application"

/-- `ErrDeviceCodeAlreadyApproved` (status 409). -/
def ErrDeviceCodeAlreadyApproved : GoError :=
  GoError.sentinel "device code has already been approved"

/-- `ErrDeviceCodeExpired` (status 410). -/
def ErrDeviceCodeExpired : GoError :=
  GoError.sentinel "the device code has expired, please regenerate a new one"

/-- `ErrDeviceCodeDenied` (status 418). -/
def ErrDeviceCodeDenied : GoError :=
  GoError.sentinel "the device code was denied by the user"

/-- `ErrPollRateTooFast` (status 429). -/
def ErrPollRateTooFast : GoError :=
  GoError.sentinel "the API is being polled too quickly"

/-- `ErrServerError` (status 500). -/
def ErrServerError : GoError :=
  GoError.sentinel "the Trakt API is reporting an internal problem, please check back later"

/-- `ErrServiceOverloaded` (statuses 503, 504). -/
def ErrServiceOverloaded : GoError :=
  GoError.sentinel "the servers are overloaded, please try again in 30 seconds"

/-- `ErrCloudflareError` (statuses 520, 521, 522). -/
def ErrCloudflareError : GoError :=
  GoError.sentinel "there is an issue with Cloudflare"

/-- The classified remote-rejection errors of the package (every exported
sentinel that names a specific HTTP status outcome). -/
def classifiedErrors : List GoError :=
  [ErrDeviceCodeUnclaimed, ErrInvalidGrant, ErrInvalidDeviceCode, ErrForbidden,
   ErrDeviceCodeAlreadyApproved, ErrDeviceCodeExpired, ErrDeviceCodeDenied,
   ErrPollRateTooFast, ErrServerError, ErrServiceOverloaded, ErrCloudflareError]

/-- Go's `errors.Is`: compare against the target, then follow the `%w`
unwrap chain. -/
def errorIs (e target : GoError) : Bool :=
  if e = target then true
  else
    match e with
    | GoError.wrap _ inner => errorIs inner target
    | _ => false

/-- `CodeResponse`: result of `GenerateNewCode`, decoded from JSON. -/
structure CodeResponse where
  deviceCode : String
  userCode : String
  verificationURL : String
  expiresIn : Int
  interval : Int
deriving DecidableEq, Repr

/-- The zero value of `CodeResponse` (`CodeResponse{}` in Go). -/
def zeroCodeResponse : CodeResponse :=
  { deviceCode := "", userCode := "", verificationURL := ""
    expiresIn := 0, interval := 0 }

/-- `internalTokenResponse`: the raw wire-format token payload. -/
structure internalTokenResponse where
  accessToken : String
  tokenType : String
  expiresIn : Int
  refreshToken : String
  scope : String
  createdAt : Int
deriving DecidableEq, Repr

/-- `TokenResponse`: the public token record; `createdAt` and `expiresAt`
are instants in nanoseconds since the Unix epoch. -/
structure TokenResponse where
  accessToken : String
  tokenType : String
  expiresAt : Int
  refreshToken : String
  scope : String
  createdAt : Int
deriving DecidableEq, Repr

/-- The instant of Go's zero `time.Time` (0001-01-01 00:00:00 UTC), in
nanoseconds since the Unix epoch. -/
def goZeroTimeNs : Int := -62135596800 * nsPerSec

/-- The zero value of `TokenResponse` (`TokenResponse{}` in Go). -/
def zeroTokenResponse : TokenResponse :=
  { accessToken := "", tokenType := "", expiresAt := goZeroTimeNs
    refreshToken := "", scope := "", createdAt := goZeroTimeNs }

/-- `transformInternalTokenResponse`: copies the opaque strings, converts
`CreatedAt` with `time.Unix(int64(CreatedAt), 0)` and sets
`ExpiresAt = CreatedAt.Add(time.Second * time.Duration(ExpiresIn))`, where
the duration multiplication is 64-bit and wraps. -/
def transformInternalTokenResponse (internal : internalTokenResponse) : TokenResponse :=
  let createdAt := internal.createdAt * nsPerSec
  { accessToken := internal.accessToken
    tokenType := internal.tokenType
    refreshToken := internal.refreshToken
    scope := internal.scope
    createdAt := createdAt
    expiresAt := createdAt + wrap64 (nsPerSec * internal.expiresIn) }

/-- The environment seen by one HTTP operation: what `http.NewRequestWithContext`,
`http.DefaultClient.Do`, `io.ReadAll` and `json.Unmarshal` would return for this
single request. `α` is the type the success body decodes into. -/
structure HttpEnv (α : Type) where
  newReqResult : Option GoError
  doResult : Except GoError Int
  readResult : Except GoError Unit
  decodeResult : Except GoError α

/-- The observable outcome of one HTTP operation: the Go result pair, plus
whether a response body was acquired from the client and whether it was
closed before returning. -/
structure OpOutput (β : Type) where
  result : β × Option GoError
  bodyAcquired : Bool
  bodyClosed : Bool

/-- `GenerateNewCodeContext`: POST `/oauth/device/code`, classify the status
(200/403/500/503/504/520/521/522, default "unexpected status" — note the
source's default branch reuses the `RequestToken` message prefix), then read
and decode the body on 200. `defer resp.Body.Close()` closes the body on
every path after `Do` succeeds. -/
def GenerateNewCodeContext (env : HttpEnv CodeResponse) : OpOutput CodeResponse :=
  match env.newReqResult with
  | some e => ⟨(zeroCodeResponse, some (GoError.wrap "GenerateNewCode" e)), false, false⟩
  | none =>
    match env.doResult with
    | Except.error e =>
      ⟨(zeroCodeResponse, some (GoError.wrap "GenerateNewCode" e)), false, false⟩
    | Except.ok status =>
      -- the body is acquired here; `defer resp.Body.Close()` closes it on
      -- whichever of the branches below returns
      let r : CodeResponse × Option GoError :=
        if status = 200 then
          match env.readResult with
          | Except.error e => (zeroCodeResponse, some (GoError.wrap "GenerateNewCode" e))
          | Except.ok _ =>
            match env.decodeResult with
            | Except.error e => (zeroCodeResponse, some (GoError.wrap "GenerateNewCode" e))
            | Except.ok codeResp => (codeResp, none)
        else if status = 403 then (zeroCodeResponse, some ErrForbidden)
        else if status = 500 then (zeroCodeResponse, some ErrServerError)
        else if status = 503 ∨ status = 504 then
          (zeroCodeResponse, some ErrServiceOverloaded)
        else if status = 520 ∨ status = 521 ∨ status = 522 then
          (zeroCodeResponse, some ErrCloudflareError)
        else (zeroCodeResponse, some (GoError.unexpectedStatus "RequestToken" status))
      ⟨r, true, true⟩

/-- `RequestTokenContext`: POST `/oauth/device/token`, classify the status
(200/400/403/404/409/410/418/429/500/503/504/520/521/522, default
"unexpected status"), then read, decode and transform the body on 200.
`defer resp.Body.Close()` closes the body on every path after `Do`
succeeds. -/
def RequestTokenContext (env : HttpEnv internalTokenResponse) : OpOutput TokenResponse :=
  match env.newReqResult with
  | some e => ⟨(zeroTokenResponse, some (GoError.wrap "RequestToken" e)), false, false⟩
  | none =>
    match env.doResult with
    | Except.error e =>
      ⟨(zeroTokenResponse, some (GoError.wrap "RequestToken" e)), false, false⟩
    | Except.ok status =>
      -- the body is acquired here; `defer resp.Body.Close()` closes it on
      -- whichever of the branches below returns
      let r : TokenResponse × Option GoError :=
        if status = 200 then
          match env.readResult with
          | Except.error e => (zeroTokenResponse, some (GoError.wrap "RequestToken" e))
          | Except.ok _ =>
            match env.decodeResult with
            | Except.error e => (zeroTokenResponse, some (GoError.wrap "RequestToken" e))
            | Except.ok respStruct => (transformInternalTokenResponse respStruct, none)
        else if status = 400 then (zeroTokenResponse, some ErrDeviceCodeUnclaimed)
        else if status = 403 then (zeroTokenResponse, some ErrForbidden)
        else if status = 404 then (zeroTokenResponse, some ErrInvalidDeviceCode)
        else if status = 409 then (zeroTokenResponse, some ErrDeviceCodeAlreadyApproved)
        else if status = 410 then (zeroTokenResponse, some ErrDeviceCodeExpired)
        else if status = 418 then (zeroTokenResponse, some ErrDeviceCodeDenied)
        else if status = 429 then (zeroTokenResponse, some ErrPollRateTooFast)
        else if status = 500 then (zeroTokenResponse, some ErrServerError)
        else if status = 503 ∨ status = 504 then
          (zeroTokenResponse, some ErrServiceOverloaded)
        else if status = 520 ∨ status = 521 ∨ status = 522 then
          (zeroTokenResponse, some ErrCloudflareError)
        else (zeroTokenResponse, some (GoError.unexpectedStatus "RequestToken" status))
      ⟨r, true, true⟩

/-- `RefreshAccessTokenContext`: POST `/oauth/token`, classify the status
(200/401/403/500/503/504/520/521/522, default "unexpected status"), then
read, decode and transform the body on 200. `defer resp.Body.Close()`
closes the body on every path after `Do` succeeds. -/
def RefreshAccessTokenContext (env : HttpEnv internalTokenResponse) : OpOutput TokenResponse :=
  match env.newReqResult with
  | some e => ⟨(zeroTokenResponse, some (GoError.wrap "RefreshToken" e)), false, false⟩
  | none =>
    match env.doResult with
    | Except.error e =>
      ⟨(zeroTokenResponse, some (GoError.wrap "RefreshToken" e)), false, false⟩
    | Except.ok status =>
      -- the body is acquired here; `defer resp.Body.Close()` closes it on
      -- whichever of the branches below returns
      let r : TokenResponse × Option GoError :=
        if status = 200 then
          match env.readResult with
          | Except.error e => (zeroTokenResponse, some (GoError.wrap "RefreshToken" e))
          | Except.ok _ =>
            match env.decodeResult with
            | Except.error e => (zeroTokenResponse, some (GoError.wrap "RefreshToken" e))
            | Except.ok respStruct => (transformInternalTokenResponse respStruct, none)
        else if status = 401 then (zeroTokenResponse, some ErrInvalidGrant)
        else if status = 403 then (zeroTokenResponse, some ErrForbidden)
        else if status = 500 then (zeroTokenResponse, some ErrServerError)
        else if status = 503 ∨ status = 504 then
          (zeroTokenResponse, some ErrServiceOverloaded)
        else if status = 520 ∨ status = 521 ∨ status = 522 then
          (zeroTokenResponse, some ErrCloudflareError)
        else (zeroTokenResponse, some (GoError.unexpectedStatus "RefreshToken" status))
      ⟨r, true, true⟩

/-- The error built by the `ctx.Done()` branch of the poll loop:
`errors.New("PollForAuthToken: could not retrieve auth token, exceeded context")`.
The same expression is evaluated whether the derived deadline elapsed or the
caller's context was cancelled. -/
def ctxExceededErr : GoError :=
  GoError.sentinel "PollForAuthToken: could not retrieve auth token, exceeded context"

/-- `fmt.Errorf("PollForAuthToken: %w", err)`: the wrapping applied to a
fatal (non-retryable) attempt error. -/
def pollWrap (e : GoError) : GoError := GoError.wrap "PollForAuthToken" e

/-- One poll run over discrete time. `envs n` is the environment of the
`n`-th exchange attempt, `doneAt` the instant the derived context's `Done`
channel fires, `t` the current instant and `fuel` a bound on the number of
loop iterations (`none` means the run was cut off by fuel, never a result
the Go loop produces). Each iteration races the interval timer (fires at
`t + interval`) against `ctx.Done()` (fires at `doneAt`); the earlier event
wins, the timer winning ties. The result carries the exit instant, the
returned `TokenResponse` and the returned error. -/
def pollLoop (envs : Nat → HttpEnv internalTokenResponse) (codeResp : CodeResponse)
    (doneAt : Int) : Nat → Int → Nat → Option (Int × TokenResponse × Option GoError)
  | 0, _, _ => none
  | fuel + 1, t, n =>
    if doneAt < t + codeResp.interval then
      some (max t doneAt, zeroTokenResponse, some ctxExceededErr)
    else
      match (RequestTokenContext (envs n)).result with
      | (resp, none) => some (t + codeResp.interval, resp, none)
      | (_, some e) =>
        if errorIs e ErrDeviceCodeUnclaimed then
          pollLoop envs codeResp doneAt fuel (t + codeResp.interval) (n + 1)
        else
          some (t + codeResp.interval, zeroTokenResponse, some (pollWrap e))

/-- The instant the derived context's `Done` channel fires:
`context.WithDeadline` truncates the caller's context, so it is the minimum
of the caller's cancellation instant (if any) and the installed deadline. -/
def ctxDoneAt (parentCancelAt : Option Int) (deadline : Int) : Int :=
  match parentCancelAt with
  | none => deadline
  | some c => min c deadline

/-- The absolute deadline `PollForAuthTokenContext` installs on entry:
`time.Now().Add(time.Second * time.Duration(codeResp.ExpiresIn))`, whose
duration multiplication is 64-bit and wraps (`wrap64`). The loop clock runs
in whole seconds, so the (possibly wrapped) nanosecond offset is floored to
seconds; this is exact whenever the product is in int64 range (the offset
is then a whole number of seconds), and since the tick instants are whole
seconds and the loop compares the deadline strictly (`doneAt < tick`, timer
winning ties), flooring a fractional deadline never changes which select
branch fires. -/
def pollDeadline (now expiresIn : Int) : Int :=
  now + wrap64 (nsPerSec * expiresIn) / nsPerSec

/-- `PollForAuthTokenContext`: truncates the caller's context with
`context.WithDeadline` to the `pollDeadline` instant on entry, then runs
the poll loop. Time is kept in seconds (the interval and tick instants are
whole seconds in the source). -/
def PollForAuthTokenContext (parentCancelAt : Option Int) (now : Int)
    (envs : Nat → HttpEnv internalTokenResponse) (codeResp : CodeResponse)
    (fuel : Nat) : Option (Int × TokenResponse × Option GoError) :=
  pollLoop envs codeResp (ctxDoneAt parentCancelAt (pollDeadline now codeResp.expiresIn))
    fuel now 0

/-- The request body built by `GenerateNewCodeContext`:
`fmt.Sprintf` interpolates `clientID` into the template verbatim. -/
def generateNewCodeBody (clientID : String) : String :=
  "\x7b\"client_id\": \"" ++ clientID ++ "\"\x7d"

/-- The request body built by `RequestTokenContext`: `fmt.Sprintf`
interpolates the device code and credentials into the template verbatim. -/
def requestTokenBody (deviceCode clientID clientSecret : String) : String :=
  "\x7b\"code\": \"" ++ deviceCode ++ "\", \"client_id\": \"" ++ clientID ++
    "\", \"client_secret\": \"" ++ clientSecret ++ "\"\x7d"

/-- The request body built by `RefreshAccessTokenContext`: `fmt.Sprintf`
interpolates the refresh token and credentials into the template verbatim. -/
def refreshAccessTokenBody (refreshToken clientID clientSecret : String) : String :=
  "\x7b\"refresh_token\": \"" ++ refreshToken ++ "\", \"client_id\": \"" ++ clientID ++
    "\", \"client_secret\": \"" ++ clientSecret ++
    "\", \"redirect_uri\": \"urn:ietf:wg:oauth:2.0:oob\", \"grant_type\": \"refresh_token\"\x7d"

/-- The opening-brace character of JSON object syntax. -/
def lbraceChar : Char := Char.ofNat 123

/-- The closing-brace character of JSON object syntax. -/
def rbraceChar : Char := Char.ofNat 125

/-- JSON insignificant whitespace (RFC 8259 §2). -/
def jsonWs (c : Char) : Bool :=
  c == ' ' || c == '\t' || c == '\n' || c == '\r'

/-- Drop leading JSON whitespace. -/
def skipWs : List Char → List Char
  | [] => []
  | c :: cs => if jsonWs c then skipWs cs else c :: cs

/-- Hexadecimal digit (for `\u` escapes). -/
def isHexDigitChar (c : Char) : Bool :=
  c.isDigit || (97 ≤ c.toNat && c.toNat ≤ 102) || (65 ≤ c.toNat && c.toNat ≤ 70)

/-- Parse the remainder of a JSON string after the opening quote; returns the
input following the closing quote (RFC 8259 §7: escapes, no raw control
characters). -/
def parseStringRest : List Char → Option (List Char)
  | [] => none
  | c :: cs =>
    if c = '"' then some cs
    else if c = '\\' then
      match cs with
      | [] => none
      | e :: cs2 =>
        if e = 'u' then
          match cs2 with
          | a :: b :: c3 :: d :: cs3 =>
            if isHexDigitChar a && isHexDigitChar b && isHexDigitChar c3 && isHexDigitChar d then
              parseStringRest cs3
            else none
          | _ => none
        else if e = '"' ∨ e = '\\' ∨ e = '/' ∨ e = 'b' ∨ e = 'f' ∨ e = 'n' ∨ e = 'r' ∨ e = 't' then
          parseStringRest cs2
        else none
    else if 32 ≤ c.toNat then parseStringRest cs
    else none

/-- Drop a leading run of decimal digits. -/
def dropDigits : List Char → List Char
  | [] => []
  | c :: cs => if c.isDigit then dropDigits cs else c :: cs

/-- Does the input start with a decimal digit? -/
def hasLeadingDigit : List Char → Bool
  | [] => false
  | c :: _ => c.isDigit

/-- Parse the optional fraction and exponent parts of a JSON number. -/
def parseFracExp (s : List Char) : Option (List Char) :=
  let afterFrac : Option (List Char) :=
    match s with
    | '.' :: cs => if hasLeadingDigit cs then some (dropDigits cs) else none
    | _ => some s
  match afterFrac with
  | none => none
  | some s2 =>
    match s2 with
    | [] => some []
    | e :: cs =>
      if e = 'e' ∨ e = 'E' then
        let cs2 : List Char :=
          match cs with
          | c :: cs3 => if c = '+' ∨ c = '-' then cs3 else c :: cs3
          | [] => []
        if hasLeadingDigit cs2 then some (dropDigits cs2) else none
      else some (e :: cs)

/-- Parse a JSON number (RFC 8259 §6): optional minus, integer part with no
leading zero, optional fraction and exponent. -/
def parseNumber (s : List Char) : Option (List Char) :=
  let s0 : List Char :=
    match s with
    | '-' :: cs => cs
    | _ => s
  match s0 with
  | [] => none
  | '0' :: cs => parseFracExp cs
  | c :: cs => if c.isDigit then parseFracExp (dropDigits cs) else none

mutual

/-- Parse one JSON value; `fuel` bounds the nesting/recursion depth. -/
def parseValue : Nat → List Char → Option (List Char)
  | 0, _ => none
  | fuel + 1, s =>
    match skipWs s with
    | [] => none
    | c :: cs =>
      if c = '"' then parseStringRest cs
      else if c = lbraceChar then
        match skipWs cs with
        | [] => none
        | d :: ds => if d = rbraceChar then some ds else parseMembers fuel (d :: ds)
      else if c = '[' then
        match skipWs cs with
        | [] => none
        | d :: ds => if d = ']' then some ds else parseElements fuel (d :: ds)
      else if c = 't' then
        match cs with
        | 'r' :: 'u' :: 'e' :: rest => some rest
        | _ => none
      else if c = 'f' then
        match cs with
        | 'a' :: 'l' :: 's' :: 'e' :: rest => some rest
        | _ => none
      else if c = 'n' then
        match cs with
        | 'u' :: 'l' :: 'l' :: rest => some rest
        | _ => none
      else if c = '-' ∨ c.isDigit then parseNumber (c :: cs)
      else none

/-- Parse one or more `"key": value` members followed by the closing brace. -/
def parseMembers : Nat → List Char → Option (List Char)
  | 0, _ => none
  | fuel + 1, s =>
    match skipWs s with
    | [] => none
    | c :: cs =>
      if c = '"' then
        match parseStringRest cs with
        | none => none
        | some afterKey =>
          match skipWs afterKey with
          | ':' :: afterColon =>
            match parseValue fuel afterColon with
            | none => none
            | some afterVal =>
              match skipWs afterVal with
              | [] => none
              | ',' :: rest => parseMembers fuel rest
              | d :: rest => if d = rbraceChar then some rest else none
          | _ => none
      else none

/-- Parse one or more array elements followed by the closing bracket. -/
def parseElements : Nat → List Char → Option (List Char)
  | 0, _ => none
  | fuel + 1, s =>
    match parseValue fuel s with
    | none => none
    | some afterVal =>
      match skipWs afterVal with
      | ',' :: rest => parseElements fuel rest
      | ']' :: rest => some rest
      | _ => none

end

/-- A string is a valid JSON document when a single JSON value parses and
only whitespace remains. -/
def isValidJson (s : String) : Bool :=
  let cs := s.toList
  match parseValue (2 * cs.length + 2) cs with
  | some rest => (skipWs rest).isEmpty
  | none => false

/-! Concrete fixtures used to instantiate the theorems below. -/

/-- A raw token payload as the Trakt API returns it on approval. -/
def payloadC : internalTokenResponse :=
  ⟨"AT", "bearer", 7776000, "RT", "public", 1700000000⟩

/-- The transformed record of `payloadC`. -/
def tokC : TokenResponse := transformInternalTokenResponse payloadC

/-- An exchange attempt answered with status 400 (code not yet claimed). -/
def unclaimedEnvC : HttpEnv internalTokenResponse :=
  ⟨none, Except.ok 400, Except.ok (), Except.ok ⟨"", "", 0, "", "", 0⟩⟩

/-- An exchange attempt answered with status 200 and `payloadC`. -/
def okEnvC : HttpEnv internalTokenResponse :=
  ⟨none, Except.ok 200, Except.ok (), Except.ok payloadC⟩

/-- An exchange attempt answered with status 403. -/
def forbEnvC : HttpEnv internalTokenResponse :=
  ⟨none, Except.ok 403, Except.ok (), Except.ok payloadC⟩

/-- A device-code grant with a 600-second lifetime and 5-second interval. -/
def crC : CodeResponse := ⟨"abc", "ABCD", "https://trakt.tv/activate", 600, 5⟩

/-- A device-code grant with a 17-second lifetime and 5-second interval. -/
def crSmall : CodeResponse := ⟨"abc", "ABCD", "https://trakt.tv/activate", 17, 5⟩

/-- A device-code grant whose lifetime of 10^10 seconds overflows the
64-bit duration `time.Second * time.Duration(ExpiresIn)`. -/
def crOverflow : CodeResponse :=
  ⟨"abc", "ABCD", "https://trakt.tv/activate", 10000000000, 5⟩

/-! Helper lemmas about the poll loop. -/

/-- Any result the poll loop produces is exactly one of: a token taken
verbatim from a successful exchange attempt paired with a nil error, the
zero token with the exceeded-context error, or the zero token with a
wrapped non-retryable attempt error. -/
lemma pollLoop_sound (envs : Nat → HttpEnv internalTokenResponse)
    (codeResp : CodeResponse) (doneAt : Int) (fuel : Nat) :
    ∀ (t : Int) (n : Nat) (exitT : Int) (tok : TokenResponse) (errOpt : Option GoError),
      pollLoop envs codeResp doneAt fuel t n = some (exitT, tok, errOpt) →
      (errOpt = none ∧ ∃ k, (RequestTokenContext (envs k)).result = (tok, none))
      ∨ (tok = zeroTokenResponse ∧ errOpt = some ctxExceededErr)
      ∨ (tok = zeroTokenResponse ∧
          ∃ e, errOpt = some (pollWrap e) ∧ errorIs e ErrDeviceCodeUnclaimed = false) := by
  induction fuel with
  | zero =>
    intro t n exitT tok errOpt h
    simp [pollLoop] at h
  | succ fuel ih =>
    intro t n exitT tok errOpt h
    rw [pollLoop] at h
    split at h
    · simp only [Option.some.injEq, Prod.mk.injEq] at h
      exact Or.inr (Or.inl ⟨h.2.1.symm, h.2.2.symm⟩)
    · split at h
      next resp heq =>
        simp only [Option.some.injEq, Prod.mk.injEq] at h
        exact Or.inl ⟨h.2.2.symm, n, by rw [heq, h.2.1]⟩
      next resp e heq =>
        split at h
        next hu => exact ih _ _ _ _ _ h
        next hu =>
          simp only [Option.some.injEq, Prod.mk.injEq] at h
          exact Or.inr (Or.inr ⟨h.2.1.symm, e, h.2.2.symm, Bool.eq_false_iff.mpr hu⟩)

/-- If every exchange attempt comes back "not yet claimed", the poll loop
keeps retrying until the `Done` instant and then exits there with the
exceeded-context error — the `Done` instant is never pushed back by a
retry. -/
lemma pollLoop_all_unclaimed (envs : Nat → HttpEnv internalTokenResponse)
    (codeResp : CodeResponse) (doneAt : Int)
    (hall : ∀ k, ∃ tok e, (RequestTokenContext (envs k)).result = (tok, some e)
        ∧ errorIs e ErrDeviceCodeUnclaimed = true) :
    ∀ (fuel : Nat) (t : Int) (n : Nat), t ≤ doneAt →
      doneAt < t + fuel * codeResp.interval →
      pollLoop envs codeResp doneAt fuel t n =
        some (doneAt, zeroTokenResponse, some ctxExceededErr) := by
  intro fuel
  induction fuel with
  | zero =>
    intro t n hle hlt
    simp only [Nat.cast_zero, zero_mul, add_zero] at hlt
    exact absurd hlt (not_lt.mpr hle)
  | succ fuel ih =>
    intro t n hle hlt
    rw [pollLoop]
    by_cases hdone : doneAt < t + codeResp.interval
    · rw [if_pos hdone, max_eq_right hle]
    · rw [if_neg hdone]
      obtain ⟨tok, e, hres, herr⟩ := hall n
      have hcast : ((fuel + 1 : Nat) : Int) * codeResp.interval =
          (fuel : Int) * codeResp.interval + codeResp.interval := by push_cast; ring
      have hrec := ih (t + codeResp.interval) (n + 1) (not_lt.mp hdone)
        (by rw [hcast] at hlt; linarith)
      split
      next resp heq =>
        rw [heq] at hres
        simp at hres
      next resp e2 heq =>
        rw [heq] at hres
        injection hres with h1 h2
        injection h2 with h2
        subst h2
        rw [if_pos herr]
        exact hrec

/-- Within the signed 64-bit range, the wraparound is the identity. -/
lemma wrap64_eq_of_bounds (n : Int) (h1 : -(2 ^ 63) ≤ n) (h2 : n < 2 ^ 63) :
    wrap64 n = n := by
  unfold wrap64
  have h64 : (2 : Int) ^ 64 = 18446744073709551616 := by norm_num
  have h63 : (2 : Int) ^ 63 = 9223372036854775808 := by norm_num
  rw [h64, h63]
  rw [h63] at h1 h2
  omega

/-- When `ExpiresIn * 10^9` fits in int64 (in particular for every
nonnegative `ExpiresIn` below ~292 years), the installed deadline is
exactly `now + ExpiresIn` seconds. -/
lemma pollDeadline_eq_of_fit (now e : Int) (h0 : 0 ≤ e)
    (hfit : nsPerSec * e < 2 ^ 63) : pollDeadline now e = now + e := by
  unfold pollDeadline wrap64 nsPerSec
  have h64 : (2 : Int) ^ 64 = 18446744073709551616 := by norm_num
  have h63 : (2 : Int) ^ 63 = 9223372036854775808 := by norm_num
  rw [h64, h63]
  unfold nsPerSec at hfit
  rw [h63] at hfit
  omega

/-- C1: when an exchange attempt returns a token with no error, the poll
loop exits on that very tick with that token and a nil error; moreover any
result the poll loop produces is exactly one of a successful attempt's
token with nil error, the exceeded-context outcome, or a wrapped
non-retryable attempt error paired with the zero token — the three shapes
being pairwise distinct, a zero-token-with-nil-error or otherwise ambiguous
result is impossible. -/
theorem poll_success_exits_immediately_and_result_unambiguous
    (envs : Nat → HttpEnv internalTokenResponse) (codeResp : CodeResponse)
    (doneAt : Int) (fuel : Nat) (t : Int) (n : Nat) :
    (∀ tok, ¬ doneAt < t + codeResp.interval →
        (RequestTokenContext (envs n)).result = (tok, none) →
        pollLoop envs codeResp doneAt (fuel + 1) t n =
          some (t + codeResp.interval, tok, none))
    ∧ (∀ exitT tok errOpt,
        pollLoop envs codeResp doneAt fuel t n = some (exitT, tok, errOpt) →
        (errOpt = none ∧ ∃ k, (RequestTokenContext (envs k)).result = (tok, none))
        ∨ (tok = zeroTokenResponse ∧ errOpt = some ctxExceededErr)
        ∨ (tok = zeroTokenResponse ∧
            ∃ e, errOpt = some (pollWrap e) ∧ errorIs e ErrDeviceCodeUnclaimed = false))
    ∧ (∀ e : GoError, pollWrap e ≠ ctxExceededErr) := by
  refine ⟨?_, pollLoop_sound envs codeResp doneAt fuel t n, ?_⟩
  · intro tok hdone hres
    rw [pollLoop, if_neg hdone]
    split
    next resp heq =>
      rw [hres] at heq
      injection heq with h1 h2
      rw [h1]
    next resp e heq =>
      rw [hres] at heq
      simp at heq
  · intro e
    simp [pollWrap, ctxExceededErr]

/-- C1 witness: with the first attempt approved (status 200, `payloadC`),
the poll loop returns the transformed token and a nil error on the first
tick. -/
theorem poll_success_exits_immediately_and_result_unambiguous_witness :
    pollLoop (fun _ => okEnvC) crC 600 1 0 0 = some (0 + crC.interval, tokC, none) :=
  (poll_success_exits_immediately_and_result_unambiguous
    (fun _ => okEnvC) crC 600 0 0 0).1 tokC (by decide) rfl

/-- C2: only a "code not yet claimed" attempt error re-enters the wait; any
other attempt error (in particular the classifications of every status in
{403, 404, 409, 410, 418, 429, 500, 503, 504, 520, 521, 522}, as well as
transport and decode errors) makes the loop return on that same attempt with
`PollForAuthToken: %w` wrapping that exact error — and the result then does
not depend on any later attempt environment, so no second attempt is made. -/
theorem poll_retry_only_on_unclaimed
    (envs : Nat → HttpEnv internalTokenResponse) (codeResp : CodeResponse)
    (doneAt : Int) (fuel : Nat) (t : Int) (n : Nat) :
    (∀ tok e, ¬ doneAt < t + codeResp.interval →
        (RequestTokenContext (envs n)).result = (tok, some e) →
        (errorIs e ErrDeviceCodeUnclaimed = false →
            ∀ envs2 : Nat → HttpEnv internalTokenResponse, envs2 n = envs n →
              pollLoop envs2 codeResp doneAt (fuel + 1) t n =
                some (t + codeResp.interval, zeroTokenResponse, some (pollWrap e)))
        ∧ (errorIs e ErrDeviceCodeUnclaimed = true →
            pollLoop envs codeResp doneAt (fuel + 1) t n =
              pollLoop envs codeResp doneAt fuel (t + codeResp.interval) (n + 1)))
    ∧ (∀ s ∈ ([403, 404, 409, 410, 418, 429, 500, 503, 504, 520, 521, 522] : List Int),
        ∀ rr : Except GoError Unit, ∀ dr : Except GoError internalTokenResponse,
        ∃ e, (RequestTokenContext ⟨none, Except.ok s, rr, dr⟩).result =
            (zeroTokenResponse, some e) ∧ errorIs e ErrDeviceCodeUnclaimed = false) := by
  constructor
  · intro tok e hdone hres
    constructor
    · intro herr envs2 h2
      rw [pollLoop, if_neg hdone]
      split
      next resp heq =>
        rw [h2, hres] at heq
        simp at heq
      next resp e2 heq =>
        rw [h2, hres] at heq
        injection heq with h1 hsome
        injection hsome with he
        subst he
        rw [if_neg (by simp [herr])]
    · intro herr
      rw [pollLoop, if_neg hdone]
      split
      next resp heq =>
        rw [hres] at heq
        simp at heq
      next resp e2 heq =>
        rw [hres] at heq
        injection heq with h1 hsome
        injection hsome with he
        subst he
        rw [if_pos herr]
  · intro s hs rr dr
    fin_cases hs <;> exact ⟨_, rfl, by decide⟩

/-- C2 witness: a first-attempt 403 ends the poll at once with the wrapped
`ErrForbidden`. -/
theorem poll_retry_only_on_unclaimed_witness :
    pollLoop (fun _ => forbEnvC) crC 600 1 0 0 =
      some (0 + crC.interval, zeroTokenResponse, some (pollWrap ErrForbidden)) :=
  (((poll_retry_only_on_unclaimed (fun _ => forbEnvC) crC 600 0 0 0).1
      zeroTokenResponse ErrForbidden (by decide) rfl).1 (by decide))
    (fun _ => forbEnvC) rfl

/-- C3 counterexample: with every attempt unclaimed, cancelling the caller's
context at t = 2 (well before the 17-second deadline) and letting the
deadline itself elapse both make `PollForAuthTokenContext` return the very
same error value, `ctxExceededErr` — the cancellation outcome is not
distinguishable from the deadline outcome. -/
theorem poll_cancel_error_equals_deadline_error :
    PollForAuthTokenContext (some 2) 0 (fun _ => unclaimedEnvC) crSmall 10 =
      some (2, zeroTokenResponse, some ctxExceededErr)
    ∧ PollForAuthTokenContext none 0 (fun _ => unclaimedEnvC) crSmall 10 =
      some (17, zeroTokenResponse, some ctxExceededErr) := by
  constructor
  · decide
  · decide

/-- C3 (amended): cancelling the caller-supplied context while the poll
loop is waiting — at an instant no later than the derived deadline and
before the next timer fire — aborts it at the cancellation instant, within
the current interval tick, with the generic exceeded-context error; that
error differs from every classified HTTP error, but it is the same value
the deadline case returns, so cancellation is not distinguishable from
deadline exhaustion. -/
theorem poll_cancel_aborts_within_tick
    (envs : Nat → HttpEnv internalTokenResponse) (codeResp : CodeResponse)
    (fuel : Nat) (now c : Int)
    (habort : c < now + codeResp.interval) (hc : now ≤ c)
    (hdl : c ≤ pollDeadline now codeResp.expiresIn) :
    PollForAuthTokenContext (some c) now envs codeResp (fuel + 1) =
      some (c, zeroTokenResponse, some ctxExceededErr)
    ∧ (∀ e ∈ classifiedErrors, ctxExceededErr ≠ e) := by
  constructor
  · rw [PollForAuthTokenContext, ctxDoneAt, min_eq_left hdl, pollLoop,
      if_pos habort, max_eq_right hc]
  · decide

/-- C3 witness: cancellation at t = 2 under a 17-second deadline exits at
t = 2, inside the first 5-second tick. -/
theorem poll_cancel_aborts_within_tick_witness :
    PollForAuthTokenContext (some 2) 0 (fun _ => unclaimedEnvC) crSmall 10 =
      some (2, zeroTokenResponse, some ctxExceededErr) :=
  (poll_cancel_aborts_within_tick (fun _ => unclaimedEnvC) crSmall 9 0 2
    (by decide) (by decide) (by decide)).1

/-- C4 counterexample: the installed deadline is `now` plus the wrapped
64-bit duration of `ExpiresIn` seconds, not `now + ExpiresIn` over
unbounded integers: for `ExpiresIn = 10^10` the duration wraps negative,
the deadline lands in the past, and with every attempt unclaimed the poll
exits immediately at `now = 0` — not at the claimed instant
`now + ExpiresIn`, which it would otherwise not reach until 10^10
seconds. -/
theorem poll_deadline_overflow :
    pollDeadline 0 crOverflow.expiresIn ≠ 0 + crOverflow.expiresIn
    ∧ PollForAuthTokenContext none 0 (fun _ => unclaimedEnvC) crOverflow 5 =
      some (0, zeroTokenResponse, some ctxExceededErr) := by
  constructor
  · decide
  · decide

/-- C4 (amended): `PollForAuthTokenContext` installs once, on entry, the
absolute deadline `now` plus the 64-bit-wrapped duration of `ExpiresIn`
seconds — equal to `now + ExpiresIn` seconds whenever `ExpiresIn * 10^9`
fits in int64; when every attempt keeps coming back "not yet claimed", the
poll exits at exactly that original instant — retries never push it back —
with the exceeded-context error, which differs from every classified HTTP
error. -/
theorem poll_deadline_fixed_and_distinct
    (envs : Nat → HttpEnv internalTokenResponse) (codeResp : CodeResponse)
    (now : Int) (fuel : Nat)
    (hall : ∀ k, ∃ tok e, (RequestTokenContext (envs k)).result = (tok, some e)
        ∧ errorIs e ErrDeviceCodeUnclaimed = true)
    (hexp : 0 ≤ codeResp.expiresIn)
    (hfit : nsPerSec * codeResp.expiresIn < 2 ^ 63)
    (hfuel : codeResp.expiresIn < (fuel : Int) * codeResp.interval) :
    PollForAuthTokenContext none now envs codeResp fuel =
      some (now + codeResp.expiresIn, zeroTokenResponse, some ctxExceededErr)
    ∧ (∀ e ∈ classifiedErrors, ctxExceededErr ≠ e) := by
  constructor
  · rw [PollForAuthTokenContext, ctxDoneAt,
      pollDeadline_eq_of_fit now codeResp.expiresIn hexp hfit]
    exact pollLoop_all_unclaimed envs codeResp (now + codeResp.expiresIn) hall fuel now 0
      (by linarith) (by linarith)
  · decide

/-- C4 witness: a 17-second deadline with 5-second interval and every
attempt unclaimed exits at t = 17 exactly. -/
theorem poll_deadline_fixed_and_distinct_witness :
    PollForAuthTokenContext none 0 (fun _ => unclaimedEnvC) crSmall 4 =
      some (0 + crSmall.expiresIn, zeroTokenResponse, some ctxExceededErr) :=
  (poll_deadline_fixed_and_distinct (fun _ => unclaimedEnvC) crSmall 0 4
    (fun _ => ⟨zeroTokenResponse, ErrDeviceCodeUnclaimed, rfl, by decide⟩)
    (by decide) (by decide) (by decide)).1

/-- C5: an exchange-code-for-token response with HTTP status 403 makes
`RequestTokenContext` return `ErrForbidden` (invalid API key or unapproved
application), whatever the body would have read or decoded to. -/
theorem requestToken_403_returns_forbidden (rr : Except GoError Unit)
    (dr : Except GoError internalTokenResponse) :
    (RequestTokenContext ⟨none, Except.ok 403, rr, dr⟩).result =
      (zeroTokenResponse, some ErrForbidden) := rfl

/-- C6 counterexample: the transformer's duration multiplication
`time.Second * time.Duration(ExpiresIn)` is 64-bit and wraps, so for the
payload with `expiresIn = 10^10` seconds (and `createdAt = 0`) the produced
record does not satisfy `ExpiresAt - CreatedAt = ExpiresIn` seconds. -/
theorem transform_expiry_overflow :
    (transformInternalTokenResponse ⟨"", "", 10000000000, "", "", 0⟩).expiresAt -
        (transformInternalTokenResponse ⟨"", "", 10000000000, "", "", 0⟩).createdAt ≠
      10000000000 * nsPerSec := by decide

/-- C6 (amended): the transformer is a pure total function; it sets
`CreatedAt` to the payload's epoch-seconds value as an absolute instant, and
whenever `ExpiresIn` is small enough that the 64-bit duration
`nsPerSec * ExpiresIn` does not overflow, `ExpiresAt - CreatedAt` is exactly
`ExpiresIn` seconds; in particular the `createdAt = 1700000000`,
`expiresIn = 7776000` round trip yields exactly 7776000 seconds, the instant
representation being time-zone free. -/
theorem transform_total_time_arithmetic (internal : internalTokenResponse)
    (hlo : -(2 ^ 63) ≤ nsPerSec * internal.expiresIn)
    (hhi : nsPerSec * internal.expiresIn < 2 ^ 63) :
    (transformInternalTokenResponse internal).createdAt = internal.createdAt * nsPerSec
    ∧ (transformInternalTokenResponse internal).expiresAt -
        (transformInternalTokenResponse internal).createdAt = internal.expiresIn * nsPerSec
    ∧ (transformInternalTokenResponse payloadC).expiresAt -
        (transformInternalTokenResponse payloadC).createdAt = 7776000 * nsPerSec := by
  refine ⟨rfl, ?_, by decide⟩
  show internal.createdAt * nsPerSec + wrap64 (nsPerSec * internal.expiresIn) -
      internal.createdAt * nsPerSec = internal.expiresIn * nsPerSec
  rw [wrap64_eq_of_bounds _ hlo hhi]
  ring

/-- C6 witness: the concrete round trip, via the amended theorem. -/
theorem transform_total_time_arithmetic_witness :
    (transformInternalTokenResponse payloadC).expiresAt -
        (transformInternalTokenResponse payloadC).createdAt = 7776000 * nsPerSec :=
  (transform_total_time_arithmetic payloadC (by decide) (by decide)).2.2

/-- C7: each transport operation closes the response body whenever one was
acquired, on every exit path — success, every classified-status branch,
read error and decode error alike (the `defer resp.Body.Close()`
discipline). -/
theorem transport_ops_always_release_body (envG : HttpEnv CodeResponse)
    (envT envR : HttpEnv internalTokenResponse) :
    (GenerateNewCodeContext envG).bodyClosed = (GenerateNewCodeContext envG).bodyAcquired
    ∧ (RequestTokenContext envT).bodyClosed = (RequestTokenContext envT).bodyAcquired
    ∧ (RefreshAccessTokenContext envR).bodyClosed =
        (RefreshAccessTokenContext envR).bodyAcquired := by
  refine ⟨?_, ?_, ?_⟩
  · rcases envG with ⟨nr, dr, rr, dc⟩
    cases nr with
    | some e => rfl
    | none => cases dr with
      | error e => rfl
      | ok status => rfl
  · rcases envT with ⟨nr, dr, rr, dc⟩
    cases nr with
    | some e => rfl
    | none => cases dr with
      | error e => rfl
      | ok status => rfl
  · rcases envR with ⟨nr, dr, rr, dc⟩
    cases nr with
    | some e => rfl
    | none => cases dr with
      | error e => rfl
      | ok status => rfl

/-- C8: any status code outside an operation's table makes that operation
return the generic "unexpected status code" error carrying the raw numeric
code (note the copied `RequestToken` message prefix in
`GenerateNewCodeContext`), not a named classification and not a success. -/
theorem ops_unexpected_status_carries_code (s : Int)
    (rrG : Except GoError Unit) (dcG : Except GoError CodeResponse)
    (rrT rrR : Except GoError Unit) (dcT dcR : Except GoError internalTokenResponse)
    (hG : s ∉ ([200, 403, 500, 503, 504, 520, 521, 522] : List Int))
    (hT : s ∉ ([200, 400, 403, 404, 409, 410, 418, 429, 500, 503, 504, 520, 521, 522] : List Int))
    (hR : s ∉ ([200, 401, 403, 500, 503, 504, 520, 521, 522] : List Int)) :
    (GenerateNewCodeContext ⟨none, Except.ok s, rrG, dcG⟩).result =
      (zeroCodeResponse, some (GoError.unexpectedStatus "RequestToken" s))
    ∧ (RequestTokenContext ⟨none, Except.ok s, rrT, dcT⟩).result =
      (zeroTokenResponse, some (GoError.unexpectedStatus "RequestToken" s))
    ∧ (RefreshAccessTokenContext ⟨none, Except.ok s, rrR, dcR⟩).result =
      (zeroTokenResponse, some (GoError.unexpectedStatus "RefreshToken" s)) := by
  simp only [List.mem_cons, List.not_mem_nil, or_false, not_or] at hG hT hR
  refine ⟨?_, ?_, ?_⟩
  · obtain ⟨g1, g2, g3, g4, g5, g6, g7, g8⟩ := hG
    simp [GenerateNewCodeContext, g1, g2, g3, g4, g5, g6, g7, g8]
  · obtain ⟨t1, t2, t3, t4, t5, t6, t7, t8, t9, t10, t11, t12, t13, t14⟩ := hT
    simp [RequestTokenContext, t1, t2, t3, t4, t5, t6, t7, t8, t9, t10, t11, t12, t13, t14]
  · obtain ⟨r1, r2, r3, r4, r5, r6, r7, r8, r9⟩ := hR
    simp [RefreshAccessTokenContext, r1, r2, r3, r4, r5, r6, r7, r8, r9]

/-- C8 witness: status 999 yields the unexpected-status error from all
three operations. -/
theorem ops_unexpected_status_carries_code_witness :
    (GenerateNewCodeContext ⟨none, Except.ok 999, Except.ok (), Except.ok zeroCodeResponse⟩).result =
      (zeroCodeResponse, some (GoError.unexpectedStatus "RequestToken" 999))
    ∧ (RequestTokenContext ⟨none, Except.ok 999, Except.ok (), Except.ok payloadC⟩).result =
      (zeroTokenResponse, some (GoError.unexpectedStatus "RequestToken" 999))
    ∧ (RefreshAccessTokenContext ⟨none, Except.ok 999, Except.ok (), Except.ok payloadC⟩).result =
      (zeroTokenResponse, some (GoError.unexpectedStatus "RefreshToken" 999)) :=
  ops_unexpected_status_carries_code 999 (Except.ok ()) (Except.ok zeroCodeResponse)
    (Except.ok ()) (Except.ok ()) (Except.ok payloadC) (Except.ok payloadC)
    (by decide) (by decide) (by decide)

/-- C9 counterexample: a 200 response whose body decodes to the zero
`CodeResponse` is returned with a nil error even though it violates the
grant invariant — `GenerateNewCodeContext` performs no validation. -/
theorem generateNewCode_invariant_not_enforced :
    (GenerateNewCodeContext
        ⟨none, Except.ok 200, Except.ok (), Except.ok zeroCodeResponse⟩).result =
      (zeroCodeResponse, none)
    ∧ ¬ (0 < zeroCodeResponse.expiresIn ∧ 0 < zeroCodeResponse.interval) :=
  ⟨rfl, by decide⟩

/-- C9 (amended): a `CodeResponse` returned with a nil error by
`GenerateNewCodeContext` is exactly the decoded payload, unvalidated; the
invariant `ExpiresIn > 0 ∧ Interval > 0` therefore holds exactly when the
decoded payload itself satisfies it. -/
theorem generateNewCode_returns_decoded_payload (codeResp : CodeResponse) :
    (GenerateNewCodeContext
        ⟨none, Except.ok 200, Except.ok (), Except.ok codeResp⟩).result =
      (codeResp, none)
    ∧ (0 < codeResp.expiresIn ∧ 0 < codeResp.interval →
        0 < (GenerateNewCodeContext
            ⟨none, Except.ok 200, Except.ok (), Except.ok codeResp⟩).result.1.expiresIn
        ∧ 0 < (GenerateNewCodeContext
            ⟨none, Except.ok 200, Except.ok (), Except.ok codeResp⟩).result.1.interval) :=
  ⟨rfl, fun h => h⟩

/-- C9 witness: a well-formed grant passes through with its positive
lifetime and interval intact. -/
theorem generateNewCode_returns_decoded_payload_witness :
    (GenerateNewCodeContext ⟨none, Except.ok 200, Except.ok (), Except.ok crC⟩).result =
      (crC, none)
    ∧ 0 < (GenerateNewCodeContext
        ⟨none, Except.ok 200, Except.ok (), Except.ok crC⟩).result.1.expiresIn
    ∧ 0 < (GenerateNewCodeContext
        ⟨none, Except.ok 200, Except.ok (), Except.ok crC⟩).result.1.interval :=
  ⟨(generateNewCode_returns_decoded_payload crC).1,
    (generateNewCode_returns_decoded_payload crC).2 (by decide)⟩

/-- C10: the request bodies are built by verbatim interpolation, so a
double-quote in a caller-supplied string breaks JSON well-formedness: for
each of the three operations there is an input whose body is not a valid
JSON document (while ordinary inputs do produce valid JSON). -/
theorem request_bodies_unescaped_interpolation :
    isValidJson (generateNewCodeBody "x\"y") = false
    ∧ isValidJson (requestTokenBody "x\"y" "clientid" "secret") = false
    ∧ isValidJson (refreshAccessTokenBody "x\"y" "clientid" "secret") = false
    ∧ isValidJson (generateNewCodeBody "myclient") = true
    ∧ isValidJson (requestTokenBody "abc" "clientid" "secret") = true
    ∧ isValidJson (refreshAccessTokenBody "tok" "clientid" "secret") = true := by
  set_option maxRecDepth 100000 in
  refine ⟨by decide, by decide, by decide, by decide, by decide, by decide⟩
